import Mathlib

/-!
Verification development for the PaperPilot Azure Functions job system.

This file gives a shallow embedding of the job-processing core of the
repository (files of interest: azure-functions/app/worker.py,
azure-functions/app/watchdog.py, azure-functions/app/jobs.py,
azure-functions/app/utils.py, azure-functions/app/config.py) and proves or
refutes the stated properties about it.

Modelling conventions, chosen once and used throughout:

 * Timestamps: the code stores ISO-8601 strings and parses them with
   datetime.fromisoformat.  The embedding abstracts a stored timestamp to
   one of three parse outcomes: missing (falsy), unparseable, or a parsed
   instant measured in whole seconds (a Nat).  Instants and the clock live
   at second granularity; all thresholds in the code are whole minutes or
   seconds, so nothing the claims speak about depends on sub-second time.
 * Dictionaries: job documents are records with the fields the claims
   touch (status, updated_at, created_at, progress, events, result,
   error_message).  A Python value that may be absent or None is an Option.
 * Effects: Cosmos writes and Service Bus sends are modelled as an emitted
   trace of operations (Op below); reads are inputs supplied by an
   environment record, one field per textual read site, so that a single
   execution of a handler is a pure function from its environment to its
   return value and its effect trace.
 * The event kwargs (extra structured fields) are carried as string pairs;
   their values never influence control flow in the modelled code.
-/

namespace PaperPilot

/-- Python str.lower applied per character; the code only ever lowercases
ASCII control values (phase names, stage names, step names), for which
Char.toLower agrees with Python. -/
def pyLower (c : Char) : Char := c.toLower

/-- Result of parsing a stored timestamp field, see the module comment. -/
inductive Stamp
  | missing
  | unparseable
  | parsed (seconds : Nat)
deriving Repr, DecidableEq

/-- One entry of a job's bounded event log (jobs.py append_event builds
these; ts abstracts the now_iso() wall-clock string). -/
structure Event where
  ts : Nat
  etype : String
  level : String
  phase : String
  message : String
  extra : List (String × String)
deriving Repr, DecidableEq

/-- EVENT_LEVELS table from jobs.py (type to default level). -/
def EVENT_LEVELS : List (String × String) :=
  [("job_created", "info"), ("job_enqueued", "info"), ("job_start", "info"),
   ("job_complete", "info"), ("phase_start", "info"), ("phase_complete", "info"),
   ("progress", "info"), ("email_sent", "info"), ("job_failed", "error"),
   ("job_enqueue_failed", "error"), ("phase_error", "error"),
   ("phase_warning", "warning")]

/-- Default MAX_EVENTS from config.py: int(os.environ.get("MAX_JOB_EVENTS", "100")). -/
def MAX_EVENTS_DEFAULT : Nat := 100

/-- Python slice events[-MAX:] on a list longer than MAX.  Mirrors Python
slicing exactly: a negative start -MAX counts from the end (clamped at 0),
while -0 is 0, so MAX = 0 returns the whole list. -/
def pyLastSlice (MAX : Nat) (l : List Event) : List Event :=
  if MAX = 0 then l else l.drop (l.length - MAX)

/-- Event record constructed by jobs.py append_event. -/
def mkEvent (now : Nat) (etype phase message : String) (level : Option String)
    (extra : List (String × String)) : Event :=
  { ts := now
    etype := etype
    level := level.getD ((EVENT_LEVELS.lookup etype).getD "info")
    phase := phase
    message := message
    extra := extra }

/-- jobs.py append_event: append the new event, then truncate to the last
MAX events when the bound is exceeded. -/
def append_event (MAX now : Nat) (events : List Event) (etype phase message : String)
    (level : Option String) (extra : List (String × String)) : List Event :=
  let events := events ++ [mkEvent now etype phase message level extra]
  if events.length > MAX then pyLastSlice MAX events else events

/-- Stage result dictionary as far as the claims inspect it: worker.py only
reads result.get("papers_found", 0) from it. -/
structure JobResult where
  papers_found : Option Int
deriving Repr, DecidableEq

/-- Progress sub-document written by update_job_progress and read back by
the idempotency gate and the watchdogs. -/
structure Progress where
  phase : String
  step : Nat
  step_name : Option String
  message : String
  current : Nat
  total : Nat
deriving Repr, DecidableEq

/-- Job document fields the modelled code reads or writes. -/
structure Job where
  status : String
  created_at : Stamp
  updated_at : Stamp
  progress : Option Progress
  events : List Event
  result : Option JobResult
  error_message : Option String
deriving Repr, DecidableEq

/-- Update dictionary built by jobs.py update_job_progress: status,
updated_at and progress are always present; events, result and
error_message only when the corresponding argument is not None. -/
structure ProgressUpdates where
  status : String
  updated_at : Nat
  progress : Progress
  events : Option (List Event)
  result : Option JobResult
  error_message : Option String
deriving Repr, DecidableEq

/-- jobs.py update_job_progress: the updates dictionary it passes to
update_job_document (the write itself is an Op in the traces below). -/
def update_job_progress (now : Nat) (status phase : String) (step : Nat)
    (message : String) (current total : Nat) (step_name : Option String)
    (events : Option (List Event)) (result : Option JobResult)
    (error : Option String) : ProgressUpdates :=
  { status := status
    updated_at := now
    progress :=
      { phase := phase
        step := step
        step_name := step_name
        message := message
        current := current
        total := total }
    events := events
    result := result
    error_message := error }

/-- jobs.py update_job_document applied to a job that exists: every key of
the updates dictionary is set on the document (patch path and
read-update-upsert path agree on this), other fields are untouched. -/
def update_job_document (job : Job) (u : ProgressUpdates) : Job :=
  { job with
    status := u.status
    updated_at := Stamp.parsed u.updated_at
    progress := some u.progress
    events := match u.events with | some es => es | none => job.events
    result := match u.result with | some r => some r | none => job.result
    error_message := match u.error_message with | some e => some e | none => job.error_message }

/-- Module constant MAX_RUNNING_MINUTES = 15 from utils.py; it is the
default value of is_job_stale's max_running_minutes parameter. -/
def MAX_RUNNING_MINUTES : Nat := 15

/-- Default of the JOB_STALE_MINUTES environment variable, read as
int(os.getenv("JOB_STALE_MINUTES", "30")) in watchdog.py. -/
def JOB_STALE_MINUTES_DEFAULT : Nat := 30

/-- Default of JOB_RUNNING_RESCUE_MINUTES in watchdog.py. -/
def JOB_RUNNING_RESCUE_MINUTES_DEFAULT : Nat := 8

/-- utils.py is_job_stale: a running job is stale when updated_at is
missing, unparseable, or strictly more than max_running_minutes old. -/
def is_job_stale (now : Nat) (job : Job) (max_running_minutes : Nat) : Bool :=
  if job.status ≠ "running" then false
  else
    match job.updated_at with
    | Stamp.missing => true
    | Stamp.unparseable => true
    | Stamp.parsed t => decide (t + max_running_minutes * 60 < now)

/-- Python regex class \w restricted to the ASCII range (letters, digits,
underscore); utils.py slugify applies it after lowercasing. -/
def isPyWordChar (c : Char) : Bool := c.isAlphanum || c == '_'

/-- Python regex class \s restricted to the ASCII range. -/
def isPySpace (c : Char) : Bool :=
  c == ' ' || c == '\t' || c == '\n' || c == '\x0b' || c == '\x0c' || c == '\r'

/-- Character class of the second substitution in slugify: [-\s]. -/
def isSlugSep (c : Char) : Bool := c == '-' || isPySpace c

/-- Replacement of every maximal run of separator characters by a single
underscore, i.e. re.sub of [-\s]+ with an underscore.  The flag records
whether the previous character belonged to a separator run. -/
def collapseSeps : Bool → List Char → List Char
  | _, [] => []
  | inRun, c :: cs =>
    if isSlugSep c then
      if inRun then collapseSeps true cs else '_' :: collapseSeps true cs
    else c :: collapseSeps false cs

/-- Python str.strip(ch): remove leading and trailing occurrences of ch. -/
def pyStrip (ch : Char) (l : List Char) : List Char :=
  (((l.dropWhile (· == ch)).reverse.dropWhile (· == ch))).reverse

/-- utils.py slugify on the character list of the query: lowercase, drop
characters outside [^\w\s-], collapse separator runs to an underscore,
strip underscores at both ends, truncate to 100 characters. -/
def slugifyL (cs : List Char) : List Char :=
  let cs := cs.map pyLower
  let cs := cs.filter (fun c => isPyWordChar c || isPySpace c || c == '-')
  let cs := collapseSeps false cs
  let cs := pyStrip '_' cs
  cs.take 100

/-- utils.py slugify. -/
def slugify (q : String) : String := String.mk (slugifyL q.toList)

/-- Boolean prefix test on character lists (helper for Python's substring
operator). -/
def isPrefixB : List Char → List Char → Bool
  | [], _ => true
  | _ :: _, [] => false
  | a :: as, b :: bs => a == b && isPrefixB as bs

/-- Python substring operator needle in hay, on character lists. -/
def containsSub (needle : List Char) : List Char → Bool
  | [] => isPrefixB needle []
  | c :: cs => isPrefixB needle (c :: cs) || containsSub needle cs

/-- Python str.lower on whole strings (ASCII, see pyLower). -/
def lowerStr (s : String) : String := String.mk (s.toList.map pyLower)

/-- worker.py: (progress.get("phase") or "").lower() for a job document. -/
def jobPhase (j : Job) : String :=
  lowerStr (match j.progress with | some p => p.phase | none => "")

/-- worker.py: (progress.get("step_name") or "").lower(). -/
def jobStepName (j : Job) : String :=
  lowerStr ((match j.progress with | some p => p.step_name | none => none).getD "")

/-- worker.py: (progress.get("message") or "").lower(). -/
def jobProgressMessage (j : Job) : String :=
  lowerStr (match j.progress with | some p => p.message | none => "")

/-- Queued sentinel: "queued" occurs in the lowercased step_name or in the
lowercased progress message (worker.py is_queued_marker; the queued
watchdog's CONTAINS(LOWER(...), 'queued') SQL filter is the same test). -/
def queuedMarker (j : Job) : Bool :=
  containsSub "queued".toList (jobStepName j).toList ||
  containsSub "queued".toList (jobProgressMessage j).toList

/-- Canonical stage order from worker.py: phase_order dictionary. -/
def phase_order : List (String × Nat) := [("search", 0), ("ranking", 1), ("report", 2)]

/-- Lookup in phase_order (Python key-in-dict plus indexing). -/
def phaseIdx? (s : String) : Option Nat := phase_order.lookup s

/-- Empty result dictionary, the value of result.get("result", \x7b\x7d)
and of the bare skip returns in worker.py. -/
def emptyResult : JobResult := { papers_found := none }

/-- Return value of worker.py process_job: (result, events, was_processed,
is_final). -/
structure PJReturn where
  result : JobResult
  events : List Event
  was_processed : Bool
  is_final : Bool
deriving Repr, DecidableEq

instance : DecidableEq (Except String PJReturn) := fun a b =>
  match a, b with
  | Except.ok x, Except.ok y =>
    if h : x = y then isTrue (by rw [h]) else isFalse (by simp [h])
  | Except.error x, Except.error y =>
    if h : x = y then isTrue (by rw [h]) else isFalse (by simp [h])
  | Except.ok _, Except.error _ => isFalse (by simp)
  | Except.error _, Except.ok _ => isFalse (by simp)

/-- Outcome of the idempotency gate at the top of process_job: either an
early return (skip) or fall-through to execution, carrying the possibly
refreshed existing_job binding. -/
inductive GateOutcome
  | skip (ret : PJReturn)
  | run (existing : Option Job)
deriving Repr, DecidableEq

/-- Bounded re-read loop of worker.py (the while time.time() < deadline
loop).  Wall-clock pacing (~2 s total, ~150 ms steps) is abstracted: the
environment supplies the finite list of get_job results the loop would
observe.  A None read keeps the previous document (get_job(...) or
refreshed).  The loop breaks at the first observed document whose phase
equals stage_norm; the returned value is that document, or none when the
loop exhausts without a match (in the source, existing_job, progress and
current_phase are rebound only on the break). -/
def refreshLoop (stage_norm : String) : Job → List (Option Job) → Option Job
  | _, [] => none
  | cur, r :: rs =>
    let refreshed := r.getD cur
    if jobPhase refreshed == stage_norm then some refreshed
    else refreshLoop stage_norm refreshed rs

/-- Idempotency gate of worker.py process_job (lines 68-160), as a function
of the initially read job document, the message stage, and the re-read
results.  Follows the source branch for branch; comments give the source
lines. -/
def gate (now : Nat) (existing_job : Option Job) (stage : Option String)
    (reads : List (Option Job)) : GateOutcome :=
  match existing_job with
  | none => GateOutcome.run none
  | some ej =>
    -- lines 74-77: terminal states are sticky
    if ej.status = "completed" ∨ ej.status = "failed" then
      GateOutcome.skip ⟨ej.result.getD emptyResult, ej.events, false, true⟩
    else if ej.status = "running" then
      -- lines 79-81: stale running job, allow retry (fall through)
      if is_job_stale now ej MAX_RUNNING_MINUTES then GateOutcome.run (some ej)
      else
        let current_phase := jobPhase ej
        let stage_norm := lowerStr (stage.getD "")
        -- lines 90-92: running and the message has no stage
        if stage_norm = "" then GateOutcome.skip ⟨emptyResult, ej.events, false, false⟩
        else
          match phaseIdx? current_phase, phaseIdx? stage_norm with
          | some pi, some si =>
            -- lines 96-103: stage behind current phase
            if si < pi then GateOutcome.skip ⟨emptyResult, ej.events, false, false⟩
            else if pi < si then
              -- lines 104-144: stage ahead, wait-and-refresh
              match refreshLoop stage_norm ej reads with
              | some refreshed =>
                -- loop broke: current_phase = stage_norm, marker re-read
                if queuedMarker refreshed then GateOutcome.run (some refreshed)
                else GateOutcome.skip ⟨emptyResult, refreshed.events, false, false⟩
              | none =>
                -- lines 125-144: still mismatched after the refresh window
                if si = pi + 1 then GateOutcome.run (some ej)
                else GateOutcome.skip ⟨emptyResult, ej.events, false, false⟩
            else
              -- equal phases: lines 147-160
              if queuedMarker ej then GateOutcome.run (some ej)
              else GateOutcome.skip ⟨emptyResult, ej.events, false, false⟩
          | _, _ =>
            -- one of the phases is outside the canonical order: lines 147-160
            if stage_norm ≠ current_phase then GateOutcome.skip ⟨emptyResult, ej.events, false, false⟩
            else if queuedMarker ej then GateOutcome.run (some ej)
            else GateOutcome.skip ⟨emptyResult, ej.events, false, false⟩
    else GateOutcome.run (some ej)

/-- Effect trace element: a Cosmos progress write (jobs.py
update_job_progress), a Service Bus send carrying the job_type and the
stage field of the message payload, the document write done inside
enqueue_job by append_job_event, or an email send. -/
inductive Op
  | progressWrite (u : ProgressUpdates)
  | enqueue (job_type : String) (stage : Option String)
  | docEventWrite
  | emailSend (address : String)
deriving Repr, DecidableEq

/-- jobs.py enqueue_job, success path: the Service Bus send followed by
append_job_event's document write recording job_enqueued.  The failure
branches (missing connection string, send exception) are not reached in
any property below and are not modelled. -/
def enqueue_job_ops (job_type : String) (stage : Option String) : List Op :=
  [Op.enqueue job_type stage, Op.docEventWrite]

/-- One execution of a pipeline stage function (pipeline.py run_search_job,
run_ranking_stage, run_report_stage) as the worker observes it: its
outcome (result dictionary or raised exception), the progress writes it
performs (these functions write through update_job_progress and never
enqueue), and the value of the caller's events list after the call (the
stage appends to the caller's list in place). -/
structure StageRun where
  outcome : Except String JobResult
  writes : List ProgressUpdates
  eventsOut : List Event

/-- Environment of one worker execution: the clock and the results of each
textual read site of process_job / process_job_message. -/
structure Env where
  now : Nat
  initialJob : Option Job
  refreshReads : List (Option Job)
  searchRun : StageRun
  rankingRun : StageRun
  reportRun : StageRun
  postSearchJob : Option Job
  postRankingJob : Option Job
  handlerJob : Option Job
  emailSendOk : Bool

/-- Python payload.get("stage") or "search" in the pipeline dispatch of
process_job (note the dispatch compares the raw, non-lowercased value). -/
def pipelineStage (payloadStage : Option String) : String :=
  match payloadStage with
  | none => "search"
  | some s => if s = "" then "search" else s

/-- Canonical empty-search failure message from worker.py. -/
def emptySearchMessage : String :=
  "Search produced 0 papers; cannot continue to ranking/report."

/-- worker.py process_job after the gate has allowed execution (lines
162-250): the init write, then the stage dispatch.  existing is the
possibly refreshed existing_job binding the gate fell through with.
Returns the Python return value (or the raised exception message) together
with the trace of writes and sends, in order. -/
def process_job_body (env : Env) (job_type : String) (payloadStage : Option String)
    (existing : Option Job) : Except String PJReturn × List Op :=
    let events0 := match existing with | some j => j.events | none => []
    let events1 := append_event MAX_EVENTS_DEFAULT env.now events0 "job_start" "init"
      ("Starting " ++ job_type ++ " job") none []
    let initW := update_job_progress env.now "running" "init" 0 "Initializing..." 0 0
      none (some events1) none none
    let trace0 := [Op.progressWrite initW]
    if job_type = "pipeline" then
      let stage := pipelineStage payloadStage
      if stage = "search" then
        match env.searchRun.outcome with
        | Except.error e => (Except.error e, trace0 ++ env.searchRun.writes.map Op.progressWrite)
        | Except.ok result =>
          let trace1 := trace0 ++ env.searchRun.writes.map Op.progressWrite
          -- line 172: empty-search short-circuit
          if result.papers_found.getD 0 ≤ 0 then
            let fetched := match env.postSearchJob with | some j => j.events | none => []
            let cur0 := if fetched.isEmpty then env.searchRun.eventsOut else fetched
            let cur1 := append_event MAX_EVENTS_DEFAULT env.now cur0 "job_failed" "search"
              emptySearchMessage none []
            let failW := update_job_progress env.now "failed" "search" 0 emptySearchMessage
              0 0 none (some cur1) (some result) (some emptySearchMessage)
            (Except.ok ⟨result, cur1, true, true⟩, trace1 ++ [Op.progressWrite failW])
          else
            -- lines 192-215: record ranking handoff, then enqueue
            let fetched := match env.postSearchJob with | some j => j.events | none => []
            let cur0 := if fetched.isEmpty then env.searchRun.eventsOut else fetched
            let cur1 := append_event MAX_EVENTS_DEFAULT env.now cur0 "progress" "ranking"
              "Queued ranking stage" none [("step", "0"), ("step_name", "Queued")]
            let qW := update_job_progress env.now "running" "ranking" 0 "Queued ranking stage"
              0 0 (some "Queued") (some cur1) none none
            (Except.ok ⟨result, cur1, true, false⟩,
              trace1 ++ [Op.progressWrite qW] ++ enqueue_job_ops "pipeline" (some "ranking"))
      else if stage = "ranking" then
        match env.rankingRun.outcome with
        | Except.error e => (Except.error e, trace0 ++ env.rankingRun.writes.map Op.progressWrite)
        | Except.ok result =>
          let trace1 := trace0 ++ env.rankingRun.writes.map Op.progressWrite
          -- lines 216-241: record report handoff, then enqueue
          let fetched := match env.postRankingJob with | some j => j.events | none => []
          let cur0 := if fetched.isEmpty then env.rankingRun.eventsOut else fetched
          let cur1 := append_event MAX_EVENTS_DEFAULT env.now cur0 "progress" "report"
            "Queued report stage" none [("step", "0"), ("step_name", "Queued")]
          let qW := update_job_progress env.now "running" "report" 0 "Queued report stage"
            0 0 (some "Queued") (some cur1) none none
          (Except.ok ⟨result, cur1, true, false⟩,
            trace1 ++ [Op.progressWrite qW] ++ enqueue_job_ops "pipeline" (some "report"))
      else if stage = "report" then
        match env.reportRun.outcome with
        | Except.error e => (Except.error e, trace0 ++ env.reportRun.writes.map Op.progressWrite)
        | Except.ok result =>
          (Except.ok ⟨result, env.reportRun.eventsOut, true, true⟩,
            trace0 ++ env.reportRun.writes.map Op.progressWrite)
      else (Except.error ("Unknown pipeline stage: " ++ stage), trace0)
    else if job_type = "search" then
      match env.searchRun.outcome with
      | Except.error e => (Except.error e, trace0 ++ env.searchRun.writes.map Op.progressWrite)
      | Except.ok result =>
        (Except.ok ⟨result, env.searchRun.eventsOut, true, true⟩,
          trace0 ++ env.searchRun.writes.map Op.progressWrite)
    else (Except.error ("Unknown job type: " ++ job_type), trace0)

/-- worker.py process_job: the idempotency gate (lines 68-160), then the
execution body.  A gate skip is an early return with no effects. -/
def process_job (env : Env) (job_type : String) (payloadStage : Option String) :
    Except String PJReturn × List Op :=
  match gate env.now env.initialJob payloadStage env.refreshReads with
  | GateOutcome.skip ret => (Except.ok ret, [])
  | GateOutcome.run existing => process_job_body env job_type payloadStage existing

/-- worker.py process_job_message, the Service Bus consumer: runs
process_job, and on was_processed ∧ is_final appends job_complete and
writes status completed (plus the optional completion email and its second
write); on a skip it performs no update; on an exception it writes status
failed and optionally sends the failure email.  Returns the full effect
trace of the message delivery. -/
def process_job_message (env : Env) (job_type : String) (payloadStage : Option String)
    (notification_email : Option String) : List Op :=
  match process_job env job_type payloadStage with
  | (Except.ok ret, t) =>
    if ret.was_processed && ret.is_final then
      let events2 := append_event MAX_EVENTS_DEFAULT env.now ret.events "job_complete"
        "complete" "Job completed" none []
      let w := update_job_progress env.now "completed" "complete" 0 "Job completed" 0 0
        none (some events2) (some ret.result) none
      let t2 := t ++ [Op.progressWrite w]
      match notification_email with
      | none => t2
      | some em =>
        if em = "" then t2
        else
          let t3 := t2 ++ [Op.emailSend em]
          if env.emailSendOk then
            let events3 := append_event MAX_EVENTS_DEFAULT env.now events2 "email_sent"
              "complete" ("Notification sent to " ++ em) none []
            t3 ++ [Op.progressWrite (update_job_progress env.now "completed" "complete" 0
              "Job completed" 0 0 none (some events3) (some ret.result) none)]
          else t3
    else t
  | (Except.error e, t) =>
    let existing_events := match env.handlerJob with | some j => j.events | none => []
    let events := append_event MAX_EVENTS_DEFAULT env.now existing_events "job_failed"
      "error" ("Job failed: " ++ e) none []
    let w := update_job_progress env.now "failed" "error" 0 ("Job failed: " ++ e) 0 0
      none (some events) none (some e)
    let t2 := t ++ [Op.progressWrite w]
    match notification_email with
    | none => t2
    | some em => if em = "" then t2 else t2 ++ [Op.emailSend em]

/-- Stored status after replaying a trace of operations over a job
document (only progress writes touch the document). -/
def replayTrace (job : Job) (t : List Op) : Job :=
  t.foldl (fun j op => match op with | Op.progressWrite u => update_job_document j u | _ => j) job

/-- worker.py _mark_job_failed_from_dlq: trace of the dead-letter handler
for a job document (None for an unknown job).  Python's final .strip() of
the message is a no-op for the non-whitespace-delimited parts modelled
here and is omitted. -/
def mark_job_failed_from_dlq (now : Nat) (job : Option Job)
    (reason description message_id : Option String) : List Op :=
  match job with
  | none => []
  | some j =>
    if j.status = "completed" ∨ j.status = "failed" then []
    else
      let reason_text := match reason with
        | some r => if r = "" then "DeadLettered" else r
        | none => "DeadLettered"
      let desc_text := match description with
        | some d => if d = "" then "" else " " ++ d
        | none => ""
      let message := "Job dead-lettered: " ++ reason_text ++ "." ++ desc_text
      let events := append_event MAX_EVENTS_DEFAULT now j.events "job_failed" "error" message none
        [("dead_letter_reason", reason.getD ""),
         ("dead_letter_error_description", description.getD ""),
         ("message_id", message_id.getD "")]
      [Op.progressWrite (update_job_progress now "failed" "error" 0 message 0 0 none
        (some events) none (some message))]

/-- watchdog.py stale_job_watchdog, per-job decision: the Cosmos query
selects only status = running documents, then the job is failed exactly
when is_job_stale holds at the JOB_STALE_MINUTES threshold. -/
def stale_watchdog_acts (now stale_minutes : Nat) (job : Job) : Bool :=
  job.status == "running" && is_job_stale now job stale_minutes

/-- watchdog.py _parse_job_updated_at: updated_at if it parses, otherwise
created_at if it parses, otherwise nothing. -/
def parse_job_updated_at (j : Job) : Option Nat :=
  match j.updated_at with
  | Stamp.parsed t => some t
  | _ => match j.created_at with | Stamp.parsed t => some t | _ => none

/-- watchdog.py running_job_rescue_watchdog, per-job decision (lines
169-196): query selects status = running; then the job is rescued exactly
when its elapsed whole minutes lie in [rescue_minutes, fail_minutes), it
carries no Queued sentinel, and its phase is a known pipeline stage. -/
def running_rescue_acts (now rescue_minutes fail_minutes : Nat) (job : Job) : Bool :=
  job.status == "running" &&
  (match parse_job_updated_at job with
   | none => false
   | some t =>
     let minutes := (now - t) / 60
     decide (rescue_minutes ≤ minutes) && decide (minutes < fail_minutes) &&
     !(queuedMarker job) &&
     (jobPhase job == "search" || jobPhase job == "ranking" || jobPhase job == "report"))

/-- watchdog.py line 302: (progress.get("phase") or "init").lower(). -/
def jobPhaseInit (j : Job) : String :=
  let raw := match j.progress with | some p => p.phase | none => ""
  lowerStr (if raw = "" then "init" else raw)

/-- Environment of one queued_job_watchdog tick acting on one job: the
clock and the behaviour of the stage functions it may invoke. -/
structure WatchdogEnv where
  now : Nat
  searchRun : StageRun
  rankingRun : StageRun
  reportRun : StageRun

/-- Selection filter of the queued_job_watchdog Cosmos query (lines
265-290): status queued, or status running with a Queued sentinel in
progress, and updated_at defined and at or before the cutoff now -
max_queued_seconds.  The SQL comparison of ISO strings is modelled as the
numeric comparison of the parsed instants; a document whose updated_at
does not parse is treated as unselected. -/
def queued_watchdog_selected (now max_queued_seconds : Nat) (job : Job) : Bool :=
  (job.status == "queued" || (job.status == "running" && queuedMarker job)) &&
  (match job.updated_at with
   | Stamp.parsed t => decide (t + max_queued_seconds ≤ now)
   | _ => false)

/-- watchdog.py queued_job_watchdog, the per-job rescue body (lines
295-456): re-checks the queued sentinel and the elapsed time, resolves the
stage from the phase, writes the Rescue marker, runs the stage, and either
fails (empty search or exception), records the next-stage Queued handoff
and enqueues it, or completes the job from the report stage.  Returns the
effect trace for this job. -/
def queued_watchdog_job_ops (env : WatchdogEnv) (max_queued_seconds : Nat) (job : Job) :
    List Op :=
  if queued_watchdog_selected env.now max_queued_seconds job then
    match parse_job_updated_at job with
    | none => []
    | some t0 =>
      let queued_seconds := env.now - t0
      let marker := queuedMarker job || job.status == "queued"
      if !marker || queued_seconds < max_queued_seconds then []
      else
        let phase := jobPhaseInit job
        let stage := if phase = "init" || phase = "" then "search"
          else if phase = "search" || phase = "ranking" || phase = "report" then phase
          else ""
        if stage = "" then []
        else
          let events1 := append_event MAX_EVENTS_DEFAULT env.now job.events "progress" stage
            ("Rescue watchdog running " ++ stage ++ " stage (queued " ++
              toString queued_seconds ++ "s)") none
            [("reason", "queued_watchdog"), ("queued_seconds", toString queued_seconds)]
          let rescueW := update_job_progress env.now "running" stage 0
            ("Rescue watchdog running " ++ stage ++ " stage") 0 0 (some "Rescue")
            (some events1) none none
          let trace0 := [Op.progressWrite rescueW]
          let failTrace := fun (run : StageRun) (e : String) =>
            let evF := append_event MAX_EVENTS_DEFAULT env.now run.eventsOut "job_failed"
              "error" ("Rescue watchdog failed: " ++ e) none [("reason", "queued_watchdog")]
            trace0 ++ run.writes.map Op.progressWrite ++
              [Op.progressWrite (update_job_progress env.now "failed" "error" 0
                ("Rescue watchdog failed: " ++ e) 0 0 none (some evF) none (some e))]
          if stage = "search" then
            match env.searchRun.outcome with
            | Except.error e => failTrace env.searchRun e
            | Except.ok result =>
              let trace1 := trace0 ++ env.searchRun.writes.map Op.progressWrite
              if result.papers_found.getD 0 ≤ 0 then
                let evF := append_event MAX_EVENTS_DEFAULT env.now env.searchRun.eventsOut
                  "job_failed" "search" emptySearchMessage none [("reason", "queued_watchdog")]
                trace1 ++ [Op.progressWrite (update_job_progress env.now "failed" "search" 0
                  emptySearchMessage 0 0 none (some evF) (some result) (some emptySearchMessage))]
              else
                let ev2 := append_event MAX_EVENTS_DEFAULT env.now env.searchRun.eventsOut
                  "progress" "ranking" "Queued ranking stage" none
                  [("step", "0"), ("step_name", "Queued"), ("reason", "queued_watchdog")]
                let qW := update_job_progress env.now "running" "ranking" 0
                  "Queued ranking stage" 0 0 (some "Queued") (some ev2) (some result) none
                trace1 ++ [Op.progressWrite qW] ++ enqueue_job_ops "pipeline" (some "ranking")
          else if stage = "ranking" then
            match env.rankingRun.outcome with
            | Except.error e => failTrace env.rankingRun e
            | Except.ok result =>
              let trace1 := trace0 ++ env.rankingRun.writes.map Op.progressWrite
              let ev2 := append_event MAX_EVENTS_DEFAULT env.now env.rankingRun.eventsOut
                "progress" "report" "Queued report stage" none
                [("step", "0"), ("step_name", "Queued"), ("reason", "queued_watchdog")]
              let qW := update_job_progress env.now "running" "report" 0
                "Queued report stage" 0 0 (some "Queued") (some ev2) (some result) none
              trace1 ++ [Op.progressWrite qW] ++ enqueue_job_ops "pipeline" (some "report")
          else
            match env.reportRun.outcome with
            | Except.error e => failTrace env.reportRun e
            | Except.ok result =>
              let trace1 := trace0 ++ env.reportRun.writes.map Op.progressWrite
              let ev2 := append_event MAX_EVENTS_DEFAULT env.now env.reportRun.eventsOut
                "job_complete" "complete" "Job completed" none []
              trace1 ++ [Op.progressWrite (update_job_progress env.now "completed" "complete" 0
                "Job completed" 0 0 none (some ev2) (some result) none)]
  else []

/-- Recogniser for the handoff progress write: status running, phase equal
to the next stage, step_name "Queued". -/
def isQueuedHandoffWrite (nextStage : String) (op : Op) : Bool :=
  match op with
  | Op.progressWrite u =>
    u.status == "running" && u.progress.phase == nextStage &&
      u.progress.step_name == some "Queued"
  | _ => false

/-- Recogniser for a queue send whose payload stage is the next stage. -/
def isSendFor (nextStage : String) (op : Op) : Bool :=
  match op with
  | Op.enqueue _ s => s == some nextStage
  | _ => false

/-- The handoff ordering property of a trace: it contains a queued-handoff
progress write for the next stage immediately followed by the queue send
for that stage, and no send for that stage occurs earlier. -/
def handoffOrdered (nextStage : String) (trace : List Op) : Prop :=
  ∃ pre w post,
    trace = pre ++ w :: Op.enqueue "pipeline" (some nextStage) :: post ∧
    isQueuedHandoffWrite nextStage w = true ∧
    ∀ op ∈ pre, isSendFor nextStage op = false

/-! Concrete fixtures used by witnesses and counterexamples. -/

/-- A terminal (completed) job document. -/
def jobCompleted : Job :=
  { status := "completed"
    created_at := Stamp.parsed 0
    updated_at := Stamp.parsed 50
    progress := some { phase := "complete", step := 0, step_name := none,
                       message := "Job completed", current := 0, total := 0 }
    events := [mkEvent 50 "job_complete" "complete" "Job completed" none []]
    result := some { papers_found := some 3 }
    error_message := none }

/-- A running job on phase search, last updated at t = 590. -/
def searchRunningJob : Job :=
  { status := "running"
    created_at := Stamp.parsed 0
    updated_at := Stamp.parsed 590
    progress := some { phase := "search", step := 2, step_name := some "Fetching",
                       message := "Searching...", current := 1, total := 3 }
    events := []
    result := none
    error_message := none }

/-- A running job on phase ranking carrying the Queued sentinel. -/
def rankingQueuedJob : Job :=
  { status := "running"
    created_at := Stamp.parsed 0
    updated_at := Stamp.parsed 595
    progress := some { phase := "ranking", step := 0, step_name := some "Queued",
                       message := "Queued ranking stage", current := 0, total := 0 }
    events := []
    result := none
    error_message := none }

/-- A running job on phase search whose updated_at is 20 minutes before
the probe instant 1200 used with it. -/
def staleRunningJob : Job :=
  { status := "running"
    created_at := Stamp.parsed 0
    updated_at := Stamp.parsed 0
    progress := some { phase := "search", step := 2, step_name := some "Fetching",
                       message := "Searching...", current := 1, total := 3 }
    events := []
    result := none
    error_message := none }

/-- A freshly created queued job document. -/
def freshQueuedJob : Job :=
  { status := "queued"
    created_at := Stamp.parsed 0
    updated_at := Stamp.parsed 0
    progress := some { phase := "init", step := 0, step_name := none,
                       message := "Waiting to start...", current := 0, total := 0 }
    events := []
    result := none
    error_message := none }

/-- Stage run returning zero papers and performing no writes. -/
def stageRunZeroPapers : StageRun :=
  { outcome := Except.ok { papers_found := some 0 }, writes := [], eventsOut := [] }

/-- Stage run returning five papers and performing no writes. -/
def stageRunFivePapers : StageRun :=
  { outcome := Except.ok { papers_found := some 5 }, writes := [], eventsOut := [] }

/-- Stage run for stages that are never reached in a scenario. -/
def stageRunUnreached : StageRun :=
  { outcome := Except.error "unreached", writes := [], eventsOut := [] }

/-- Environment of the empty-search scenario: a fresh queued job whose
search stage finds zero papers. -/
def envEmptySearch : Env :=
  { now := 10
    initialJob := some freshQueuedJob
    refreshReads := []
    searchRun := stageRunZeroPapers
    rankingRun := stageRunUnreached
    reportRun := stageRunUnreached
    postSearchJob := none
    postRankingJob := none
    handlerJob := none
    emailSendOk := false }

/-- Environment of a successful search stage on a new job (no stored
document yet), used to exhibit the search-to-ranking handoff. -/
def envSearchHandoff : Env :=
  { now := 10
    initialJob := none
    refreshReads := []
    searchRun := stageRunFivePapers
    rankingRun := stageRunUnreached
    reportRun := stageRunUnreached
    postSearchJob := none
    postRankingJob := none
    handlerJob := none
    emailSendOk := false }

/-- Environment of a successful ranking stage on a new job, used to
exhibit the ranking-to-report handoff. -/
def envRankingHandoff : Env :=
  { now := 10
    initialJob := none
    refreshReads := []
    searchRun := stageRunUnreached
    rankingRun := stageRunFivePapers
    reportRun := stageRunUnreached
    postSearchJob := none
    postRankingJob := none
    handlerJob := none
    emailSendOk := false }

/-- Watchdog environment whose search and ranking stages succeed. -/
def wdEnvSuccess : WatchdogEnv :=
  { now := 100
    searchRun := stageRunFivePapers
    rankingRun := stageRunFivePapers
    reportRun := stageRunUnreached }

/-- A queued job that has sat in the queue since t = 0 (old enough for the
queued watchdog at its default 20 second threshold and probe instant 100). -/
def queuedOldJob : Job :=
  { status := "queued"
    created_at := Stamp.parsed 0
    updated_at := Stamp.parsed 0
    progress := none
    events := []
    result := none
    error_message := none }

/-- A running job stuck on the search Queued sentinel since t = 0. -/
def searchStuckQueuedJob : Job :=
  { status := "running"
    created_at := Stamp.parsed 0
    updated_at := Stamp.parsed 0
    progress := some { phase := "search", step := 0, step_name := some "Queued",
                       message := "Queued search stage", current := 0, total := 0 }
    events := []
    result := none
    error_message := none }

/-- A running job stuck on the ranking Queued sentinel since t = 0. -/
def rankingStuckQueuedJob : Job :=
  { status := "running"
    created_at := Stamp.parsed 0
    updated_at := Stamp.parsed 0
    progress := some { phase := "ranking", step := 0, step_name := some "Queued",
                       message := "Queued ranking stage", current := 0, total := 0 }
    events := []
    result := none
    error_message := none }

/-- Query string whose slug is exactly 100 characters and ends in an
underscore: 99 letters a followed by a space and two letters b. -/
def slugBoundaryQuery : String := String.mk (List.replicate 99 'a') ++ " bb"

/-! Claim theorems. -/

/-- C8: for every call of update_job_progress with events, result and
error all None, the update dictionary contains only status, updated_at and
progress, and applying it to a job document leaves events, result and
error_message unchanged (while setting exactly the three named fields). -/
theorem update_job_progress_frame (job : Job) (now : Nat) (status phase : String)
    (step : Nat) (message : String) (current total : Nat) (step_name : Option String) :
    (update_job_progress now status phase step message current total step_name
        none none none).events = none ∧
    (update_job_progress now status phase step message current total step_name
        none none none).result = none ∧
    (update_job_progress now status phase step message current total step_name
        none none none).error_message = none ∧
    (update_job_document job (update_job_progress now status phase step message current
        total step_name none none none)).events = job.events ∧
    (update_job_document job (update_job_progress now status phase step message current
        total step_name none none none)).result = job.result ∧
    (update_job_document job (update_job_progress now status phase step message current
        total step_name none none none)).error_message = job.error_message ∧
    (update_job_document job (update_job_progress now status phase step message current
        total step_name none none none)).status = status ∧
    (update_job_document job (update_job_progress now status phase step message current
        total step_name none none none)).updated_at = Stamp.parsed now ∧
    (update_job_document job (update_job_progress now status phase step message current
        total step_name none none none)).progress =
      some { phase := phase, step := step, step_name := step_name, message := message,
             current := current, total := total } := by
  refine ⟨rfl, rfl, rfl, rfl, rfl, rfl, rfl, rfl, rfl⟩

/-- C7: append_event keeps the event log within the configured maximum
(for any positive maximum, in particular the default 100), and when the
bound is exceeded the returned list is exactly the last MAX entries of the
appended list in order: a prefix of oldest entries is dropped, the length
is exactly MAX, and the new event is the last element. -/
theorem append_event_bounded (MAX now : Nat) (events : List Event)
    (etype phase message : String) (level : Option String)
    (extra : List (String × String)) (hMAX : 1 ≤ MAX) :
    (append_event MAX now events etype phase message level extra).length ≤ MAX ∧
    (MAX < events.length + 1 →
      ∃ dropped,
        events ++ [mkEvent now etype phase message level extra] =
          dropped ++ append_event MAX now events etype phase message level extra ∧
        dropped.length = events.length + 1 - MAX ∧
        (append_event MAX now events etype phase message level extra).length = MAX ∧
        (append_event MAX now events etype phase message level extra).getLast? =
          some (mkEvent now etype phase message level extra)) := by
  have hM0 : MAX ≠ 0 := by omega
  set e := mkEvent now etype phase message level extra with he
  set l := events ++ [e] with hl
  have hlen : l.length = events.length + 1 := by
    simp [hl]
  by_cases hgt : l.length > MAX
  · have hae : append_event MAX now events etype phase message level extra =
        l.drop (l.length - MAX) := by
      simp only [append_event, pyLastSlice, ← he, ← hl]
      rw [if_pos hgt, if_neg hM0]
    have hdroplen : (l.drop (l.length - MAX)).length = MAX := by
      rw [List.length_drop]
      omega
    constructor
    · rw [hae, hdroplen]
    · intro _
      refine ⟨l.take (l.length - MAX), ?_, ?_, ?_, ?_⟩
      · rw [hae, List.take_append_drop]
      · rw [List.length_take]
        omega
      · rw [hae, hdroplen]
      · rw [hae]
        have hne : l.drop (l.length - MAX) ≠ [] := by
          intro hnil
          have := hdroplen
          rw [hnil] at this
          simp at this
          omega
        have hsplit : l.take (l.length - MAX) ++ l.drop (l.length - MAX) = l :=
          List.take_append_drop _ _
        have hlast : l.getLast? = some e := List.getLast?_concat events
        calc (l.drop (l.length - MAX)).getLast?
            = (l.take (l.length - MAX) ++ l.drop (l.length - MAX)).getLast? := by
              rw [List.getLast?_append_of_ne_nil _ hne]
          _ = l.getLast? := by rw [hsplit]
          _ = some e := hlast
  · have hae : append_event MAX now events etype phase message level extra = l := by
      simp only [append_event, ← he, ← hl]
      rw [if_neg hgt]
    constructor
    · rw [hae]
      omega
    · intro hc
      omega

/-- Witness for append_event_bounded at the default maximum 100 and a
concrete log. -/
theorem append_event_bounded_witness :
    1 ≤ MAX_EVENTS_DEFAULT ∧
    (append_event MAX_EVENTS_DEFAULT 7 [] "progress" "search" "step" none []).length ≤
      MAX_EVENTS_DEFAULT :=
  ⟨by decide,
   (append_event_bounded MAX_EVENTS_DEFAULT 7 [] "progress" "search" "step" none []
     (by decide)).1⟩

/-- C6: watchdog disjointness.  For a running job observed with a parsed
updated_at instant t, write m for the whole elapsed minutes (now - t) / 60
as the rescue watchdog computes them.  If m lies in
[rescue_minutes, fail_minutes) then the stale-fail watchdog does not fail
the job; if fail_minutes ≤ m then the running-rescue watchdog skips it;
and no single observation is acted on by both watchdogs. -/
theorem watchdog_disjointness (now rescue_minutes fail_minutes t : Nat) (j : Job)
    (hupd : j.updated_at = Stamp.parsed t) :
    ((rescue_minutes ≤ (now - t) / 60 ∧ (now - t) / 60 < fail_minutes) →
      stale_watchdog_acts now fail_minutes j = false) ∧
    (fail_minutes ≤ (now - t) / 60 →
      running_rescue_acts now rescue_minutes fail_minutes j = false) ∧
    ¬(stale_watchdog_acts now fail_minutes j = true ∧
      running_rescue_acts now rescue_minutes fail_minutes j = true) := by
  have hdm := Nat.div_add_mod (now - t) 60
  have hmod : (now - t) % 60 < 60 := Nat.mod_lt _ (by omega)
  have hstale : stale_watchdog_acts now fail_minutes j =
      (j.status == "running" && decide (t + fail_minutes * 60 < now)) := by
    simp only [stale_watchdog_acts, is_job_stale, hupd]
    by_cases hs : j.status = "running"
    · rw [if_neg (by simp [hs])]
    · simp [hs]
  have hrescue_parse : parse_job_updated_at j = some t := by
    simp [parse_job_updated_at, hupd]
  have hrescue : running_rescue_acts now rescue_minutes fail_minutes j =
      (j.status == "running" &&
        (decide (rescue_minutes ≤ (now - t) / 60) && decide ((now - t) / 60 < fail_minutes) &&
         !(queuedMarker j) &&
         (jobPhase j == "search" || jobPhase j == "ranking" || jobPhase j == "report"))) := by
    simp only [running_rescue_acts, hrescue_parse]
  refine ⟨?_, ?_, ?_⟩
  · rintro ⟨_, hlt⟩
    rw [hstale]
    have : ¬(t + fail_minutes * 60 < now) := by
      intro hcontra
      omega
    simp [this]
  · intro hge
    rw [hrescue]
    have : ¬((now - t) / 60 < fail_minutes) := by omega
    simp [this]
  · rintro ⟨hs, hr⟩
    rw [hstale] at hs
    rw [hrescue] at hr
    have h1 : t + fail_minutes * 60 < now := by
      rcases Bool.and_eq_true_iff.mp hs with ⟨_, h⟩
      exact of_decide_eq_true h
    have h2 : (now - t) / 60 < fail_minutes := by
      rcases Bool.and_eq_true_iff.mp hr with ⟨_, h⟩
      rcases Bool.and_eq_true_iff.mp h with ⟨h', _⟩
      rcases Bool.and_eq_true_iff.mp h' with ⟨h'', _⟩
      rcases Bool.and_eq_true_iff.mp h'' with ⟨_, hlt⟩
      exact of_decide_eq_true hlt
    omega

/-- Witness for watchdog_disjointness: a job 10 whole minutes old with the
default thresholds 8 and 30. -/
theorem watchdog_disjointness_witness :
    stale_watchdog_acts 600 30 (Job.mk "running" (Stamp.parsed 0) (Stamp.parsed 0)
      none [] none none) = false :=
  (watchdog_disjointness 600 8 30 0 _ rfl).1 (by decide)

/-- C1: terminal stickiness.  For a job whose stored status is completed
or failed: the idempotency gate skips a duplicate delivery returning
(was_processed = false, is_final = true) and the whole message delivery
writes and enqueues nothing; the dead-letter handler drops its message
without a write; and neither watchdog selects or acts on the job. -/
theorem terminal_stickiness (j : Job)
    (h : j.status = "completed" ∨ j.status = "failed") :
    (∀ now stage reads, gate now (some j) stage reads =
        GateOutcome.skip ⟨j.result.getD emptyResult, j.events, false, true⟩) ∧
    (∀ env jt st em, env.initialJob = some j →
        process_job env jt st =
          (Except.ok (PJReturn.mk (j.result.getD emptyResult) j.events false true),
           ([] : List Op)) ∧
        process_job_message env jt st em = []) ∧
    (∀ now reason description mid,
        mark_job_failed_from_dlq now (some j) reason description mid = []) ∧
    (∀ now sm, stale_watchdog_acts now sm j = false) ∧
    (∀ now rm fm, running_rescue_acts now rm fm j = false) ∧
    (∀ now mq, queued_watchdog_selected now mq j = false) ∧
    (∀ wenv mq, queued_watchdog_job_ops wenv mq j = []) := by
  have hnotrun : (j.status == "running") = false := by
    rcases h with h | h <;> simp [h]
  have hnotqueued : (j.status == "queued") = false := by
    rcases h with h | h <;> simp [h]
  have hgate : ∀ now stage reads, gate now (some j) stage reads =
      GateOutcome.skip ⟨j.result.getD emptyResult, j.events, false, true⟩ := by
    intro now stage reads
    simp only [gate]
    rw [if_pos h]
  have hsel : ∀ now mq, queued_watchdog_selected now mq j = false := by
    intro now mq
    simp [queued_watchdog_selected, hnotrun, hnotqueued]
  refine ⟨hgate, ?_, ?_, ?_, ?_, hsel, ?_⟩
  · intro env jt st em heq
    have hpj : process_job env jt st =
        (Except.ok (PJReturn.mk (j.result.getD emptyResult) j.events false true),
         ([] : List Op)) := by
      simp only [process_job, heq, hgate]
    refine ⟨hpj, ?_⟩
    simp [process_job_message, hpj]
  · intro now reason description mid
    simp only [mark_job_failed_from_dlq]
    rw [if_pos h]
  · intro now sm
    simp [stale_watchdog_acts, hnotrun]
  · intro now rm fm
    simp [running_rescue_acts, hnotrun]
  · intro wenv mq
    simp [queued_watchdog_job_ops, hsel]

/-- Witness for terminal_stickiness at a concrete completed job. -/
theorem terminal_stickiness_witness :
    (jobCompleted.status = "completed" ∨ jobCompleted.status = "failed") ∧
    gate 1000 (some jobCompleted) (some "search") [] =
      GateOutcome.skip ⟨jobCompleted.result.getD emptyResult, jobCompleted.events,
        false, true⟩ ∧
    mark_job_failed_from_dlq 1000 (some jobCompleted)
      (some "MaxDeliveryCountExceeded") none none = [] ∧
    stale_watchdog_acts 100000 30 jobCompleted = false ∧
    running_rescue_acts 100000 8 30 jobCompleted = false ∧
    queued_watchdog_selected 100000 20 jobCompleted = false :=
  ⟨Or.inl rfl,
   (terminal_stickiness jobCompleted (Or.inl rfl)).1 1000 (some "search") [],
   (terminal_stickiness jobCompleted (Or.inl rfl)).2.2.1 1000
     (some "MaxDeliveryCountExceeded") none none,
   (terminal_stickiness jobCompleted (Or.inl rfl)).2.2.2.1 100000 30,
   (terminal_stickiness jobCompleted (Or.inl rfl)).2.2.2.2.1 100000 8 30,
   (terminal_stickiness jobCompleted (Or.inl rfl)).2.2.2.2.2.1 100000 20⟩

/-- C2 (code divergence): in the empty-search scenario, process_job does
write status failed with the canonical message and returns
(was_processed = true, is_final = true) without enqueueing a ranking
message — but the consumer then treats was_processed ∧ is_final as
completion and overwrites the document: after the whole message delivery
the stored status is "completed" (with error_message still holding the
canonical text), not "failed" as the claim and scenario S2 state. -/
theorem empty_search_final_status_overwritten :
    (process_job envEmptySearch "pipeline" (some "search")).2.any
      (fun op => decide (op = Op.progressWrite (update_job_progress 10 "failed" "search" 0
        emptySearchMessage 0 0 none
        (some [mkEvent 10 "job_failed" "search" emptySearchMessage none []])
        (some { papers_found := some 0 }) (some emptySearchMessage)))) = true ∧
    ((process_job envEmptySearch "pipeline" (some "search")).1.toOption.map
      (fun r => (r.was_processed, r.is_final))) = some (true, true) ∧
    ((process_job_message envEmptySearch "pipeline" (some "search") none).any
      (fun op => decide (op = Op.enqueue "pipeline" (some "ranking")))) = false ∧
    (replayTrace freshQueuedJob
      (process_job_message envEmptySearch "pipeline" (some "search") none)).status =
      "completed" ∧
    (replayTrace freshQueuedJob
      (process_job_message envEmptySearch "pipeline" (some "search") none)).error_message =
      some emptySearchMessage := by
  refine ⟨by decide, by decide, by decide, by decide, by decide⟩

/-- C3 counterexample: a running job last updated 20 minutes ago (probe
instant 1200 s, updated_at 0).  It is not stale by the stale-fail
watchdog's JOB_STALE_MINUTES definition (default 30), yet the gate's
stale-override branch fires: the gate lets a stage-less message run, which
for a non-stale running job it never does.  The gate's threshold is the
is_job_stale default MAX_RUNNING_MINUTES = 15, not JOB_STALE_MINUTES. -/
theorem gate_stale_threshold_counterexample :
    staleRunningJob.status = "running" ∧
    is_job_stale 1200 staleRunningJob JOB_STALE_MINUTES_DEFAULT = false ∧
    is_job_stale 1200 staleRunningJob MAX_RUNNING_MINUTES = true ∧
    gate 1200 (some staleRunningJob) none [] = GateOutcome.run (some staleRunningJob) := by
  refine ⟨rfl, by decide, by decide, by decide⟩

/-- C3 amended: the gate's stale-override branch fires exactly when
is_job_stale holds at the module default MAX_RUNNING_MINUTES = 15 minutes
(updated_at more than 15 minutes old, missing, or unparseable): a stale
running job runs whatever the message carries, a non-stale running job is
skipped when the message has no stage.  The stale-fail watchdog evaluates
the same is_job_stale predicate but at the JOB_STALE_MINUTES threshold,
whose default is 30, so the two thresholds differ by default. -/
theorem gate_stale_override_threshold (now : Nat) (j : Job)
    (h : j.status = "running") :
    (is_job_stale now j MAX_RUNNING_MINUTES = true →
      ∀ stage reads, gate now (some j) stage reads = GateOutcome.run (some j)) ∧
    (is_job_stale now j MAX_RUNNING_MINUTES = false →
      ∀ reads, gate now (some j) none reads =
        GateOutcome.skip ⟨emptyResult, j.events, false, false⟩) ∧
    MAX_RUNNING_MINUTES = 15 ∧ JOB_STALE_MINUTES_DEFAULT = 30 := by
  have hterm : ¬(j.status = "completed" ∨ j.status = "failed") := by
    rw [h]; decide
  refine ⟨?_, ?_, rfl, rfl⟩
  · intro hstale stage reads
    simp [gate, hterm, h, hstale]
  · intro hns reads
    have hlow : lowerStr "" = "" := rfl
    simp [gate, hterm, h, hns, hlow]

/-- Witness for gate_stale_override_threshold: the stale job runs at 20
minutes, the fresh job's stage-less duplicate is skipped. -/
theorem gate_stale_override_threshold_witness :
    staleRunningJob.status = "running" ∧ searchRunningJob.status = "running" ∧
    gate 1200 (some staleRunningJob) (some "ranking") [] =
      GateOutcome.run (some staleRunningJob) ∧
    gate 600 (some searchRunningJob) none [] =
      GateOutcome.skip ⟨emptyResult, searchRunningJob.events, false, false⟩ :=
  ⟨rfl, rfl,
   (gate_stale_override_threshold 1200 staleRunningJob rfl).1 (by decide)
     (some "ranking") [],
   (gate_stale_override_threshold 600 searchRunningJob rfl).2.1 (by decide) []⟩

/-- C4 counterexample: a non-stale running job at phase search receives a
message for stage ranking (one step ahead).  The re-read loop observes a
refreshed document whose phase equals the message stage ("ranking", ahead
by zero, not one) and carries the Queued sentinel — and the gate runs.
This refutes the claim that after the re-read loop the gate "runs only if
S is ahead of the refreshed phase by exactly one step". -/
theorem gate_refresh_catchup_counterexample :
    searchRunningJob.status = "running" ∧
    is_job_stale 600 searchRunningJob MAX_RUNNING_MINUTES = false ∧
    jobPhase searchRunningJob = "search" ∧
    jobPhase rankingQueuedJob = "ranking" ∧
    refreshLoop "ranking" searchRunningJob [some rankingQueuedJob] =
      some rankingQueuedJob ∧
    gate 600 (some searchRunningJob) (some "ranking") [some rankingQueuedJob] =
      GateOutcome.run (some rankingQueuedJob) := by
  refine ⟨rfl, by decide, by decide, by decide, by decide, by decide⟩

/-- C4 amended: for a message naming stage S against a non-stale running
job at phase P (canonical order search < ranking < report): no stage →
skip; S behind P → skip; S ahead of P → the bounded re-read loop stops
early only at a document whose phase equals S exactly, and then the gate
runs iff that document carries the Queued sentinel; if no re-read catches
up, the gate runs iff S is ahead of the originally read phase by exactly
one step, and skips when it is ahead by more than one. -/
theorem gate_stage_ordering (now : Nat) (j : Job) (reads : List (Option Job))
    (S : String) (pi si : Nat)
    (hrun : j.status = "running")
    (hstale : is_job_stale now j MAX_RUNNING_MINUTES = false)
    (hp : phaseIdx? (jobPhase j) = some pi)
    (hs : phaseIdx? (lowerStr S) = some si) :
    (∀ reads', gate now (some j) none reads' =
        GateOutcome.skip ⟨emptyResult, j.events, false, false⟩) ∧
    (si < pi → gate now (some j) (some S) reads =
        GateOutcome.skip ⟨emptyResult, j.events, false, false⟩) ∧
    (pi < si → ∀ r, refreshLoop (lowerStr S) j reads = some r →
        gate now (some j) (some S) reads =
          if queuedMarker r then GateOutcome.run (some r)
          else GateOutcome.skip ⟨emptyResult, r.events, false, false⟩) ∧
    (pi < si → refreshLoop (lowerStr S) j reads = none →
        gate now (some j) (some S) reads =
          if si = pi + 1 then GateOutcome.run (some j)
          else GateOutcome.skip ⟨emptyResult, j.events, false, false⟩) := by
  have hterm : ¬(j.status = "completed" ∨ j.status = "failed") := by
    rw [hrun]; decide
  have hne : ¬(lowerStr S = "") := by
    intro he
    rw [he] at hs
    have hnone : phaseIdx? "" = none := by decide
    rw [hnone] at hs
    exact Option.noConfusion hs
  have hlow : lowerStr "" = "" := rfl
  refine ⟨?_, ?_, ?_, ?_⟩
  · intro reads'
    simp [gate, hterm, hrun, hstale, hlow]
  · intro hlt
    simp [gate, hterm, hrun, hstale, hne, hp, hs, hlt]
  · intro hgt r hr
    have hnlt : ¬ si < pi := by omega
    simp [gate, hterm, hrun, hstale, hne, hp, hs, hnlt, hgt, hr]
  · intro hgt hr
    have hnlt : ¬ si < pi := by omega
    simp [gate, hterm, hrun, hstale, hne, hp, hs, hnlt, hgt, hr]

/-- Witness for gate_stage_ordering: behind-skip, no-stage skip, and the
exhausted-refresh next-step run at concrete jobs. -/
theorem gate_stage_ordering_witness :
    searchRunningJob.status = "running" ∧ rankingQueuedJob.status = "running" ∧
    gate 600 (some searchRunningJob) none [] =
      GateOutcome.skip ⟨emptyResult, searchRunningJob.events, false, false⟩ ∧
    gate 600 (some rankingQueuedJob) (some "search") [] =
      GateOutcome.skip ⟨emptyResult, rankingQueuedJob.events, false, false⟩ ∧
    gate 600 (some searchRunningJob) (some "ranking") [] =
      GateOutcome.run (some searchRunningJob) := by
  refine ⟨rfl, rfl, ?_, ?_, ?_⟩
  · exact (gate_stage_ordering 600 searchRunningJob [] "search" 0 0 rfl (by decide)
      (by decide) (by decide)).1 []
  · exact (gate_stage_ordering 600 rankingQueuedJob [] "search" 1 0 rfl (by decide)
      (by decide) (by decide)).2.1 (by decide)
  · have h := (gate_stage_ordering 600 searchRunningJob [] "ranking" 0 1 rfl (by decide)
      (by decide) (by decide)).2.2.2 (by decide) rfl
    simpa using h

/-- Helper: every non-exceptional return of the post-gate execution body
carries was_processed = true (so was_processed = false identifies a gate
skip). -/
theorem process_job_body_processed (env : Env) (jt : String) (st : Option String)
    (ex : Option Job) :
    ∀ ret, (process_job_body env jt st ex).1 = Except.ok ret →
      ret.was_processed = true := by
  intro ret h
  simp only [process_job_body] at h
  repeat' split at h
  all_goals try simp_all
  all_goals rw [← h]

/-- C10: whenever the idempotency gate decides to skip (the returned
was_processed is false), process_job has performed no write and no
enqueue, and the consumer performs no update either: the whole message
delivery has an empty effect trace. -/
theorem gate_skip_writes_nothing (env : Env) (jt : String) (st : Option String)
    (em : Option String) (ret : PJReturn)
    (hok : (process_job env jt st).1 = Except.ok ret)
    (hskip : ret.was_processed = false) :
    (process_job env jt st).2 = [] ∧
    process_job_message env jt st em = [] ∧
    (∃ r, gate env.now env.initialJob st env.refreshReads = GateOutcome.skip r) := by
  rcases hg : gate env.now env.initialJob st env.refreshReads with r | ex
  · have hpj : process_job env jt st = (Except.ok r, []) := by
      simp [process_job, hg]
    have hret : r = ret := by
      rw [hpj] at hok
      exact Except.ok.inj hok
    have hw : r.was_processed = false := by rw [hret]; exact hskip
    refine ⟨by rw [hpj], ?_, ⟨r, rfl⟩⟩
    simp [process_job_message, hpj, hw]
  · exfalso
    have hbody : (process_job_body env jt st ex).1 = Except.ok ret := by
      have : process_job env jt st = process_job_body env jt st ex := by
        simp [process_job, hg]
      rw [this] at hok
      exact hok
    have := process_job_body_processed env jt st ex ret hbody
    rw [hskip] at this
    exact Bool.noConfusion this

/-- Witness for gate_skip_writes_nothing: a duplicate delivery for the
completed job writes and enqueues nothing. -/
theorem gate_skip_writes_nothing_witness :
    (process_job { envEmptySearch with initialJob := some jobCompleted }
      "pipeline" (some "search")).2 = [] ∧
    process_job_message { envEmptySearch with initialJob := some jobCompleted }
      "pipeline" (some "search") none = [] := by
  have h := gate_skip_writes_nothing
    { envEmptySearch with initialJob := some jobCompleted } "pipeline" (some "search")
    none ⟨jobCompleted.result.getD emptyResult, jobCompleted.events, false, true⟩
    (by decide) rfl
  exact ⟨h.1, h.2.1⟩

/-- Helper: a trace consisting of progress writes, then the queued-handoff
write, then the enqueue, satisfies handoffOrdered. -/
theorem handoffOrdered_of_shape (s : String) (w0 qw : ProgressUpdates)
    (ws : List ProgressUpdates) (rest : List Op)
    (hq : isQueuedHandoffWrite s (Op.progressWrite qw) = true) :
    handoffOrdered s (Op.progressWrite w0 :: ws.map Op.progressWrite ++
      (Op.progressWrite qw :: Op.enqueue "pipeline" (some s) :: rest)) := by
  refine ⟨Op.progressWrite w0 :: ws.map Op.progressWrite, Op.progressWrite qw, rest,
    by simp, hq, ?_⟩
  intro op hop
  rcases List.mem_cons.mp hop with h | h
  · rw [h]; rfl
  · rcases List.mem_map.mp h with ⟨u, _, h2⟩
    rw [← h2]; rfl

/-- C5: handoff ordering.  For each non-terminal stage completion — search
to ranking and ranking to report, driven by the worker or by the
queued-rescue watchdog — the effect trace records the progress write with
status running, phase set to the next stage, and step_name "Queued"
strictly before the queue send whose payload stage is that next stage (and
no earlier send for that stage exists). -/
theorem handoff_progress_write_before_enqueue :
    (∀ env st ex res,
      gate env.now env.initialJob st env.refreshReads = GateOutcome.run ex →
      pipelineStage st = "search" →
      env.searchRun.outcome = Except.ok res →
      ¬(res.papers_found.getD 0 ≤ 0) →
      handoffOrdered "ranking" (process_job env "pipeline" st).2) ∧
    (∀ env st ex res,
      gate env.now env.initialJob st env.refreshReads = GateOutcome.run ex →
      pipelineStage st = "ranking" →
      env.rankingRun.outcome = Except.ok res →
      handoffOrdered "report" (process_job env "pipeline" st).2) ∧
    (∀ wenv mq job t0 res,
      queued_watchdog_selected wenv.now mq job = true →
      parse_job_updated_at job = some t0 →
      (queuedMarker job || (job.status == "queued")) = true →
      ¬(wenv.now - t0 < mq) →
      jobPhaseInit job = "search" →
      wenv.searchRun.outcome = Except.ok res →
      ¬(res.papers_found.getD 0 ≤ 0) →
      handoffOrdered "ranking" (queued_watchdog_job_ops wenv mq job)) ∧
    (∀ wenv mq job t0 res,
      queued_watchdog_selected wenv.now mq job = true →
      parse_job_updated_at job = some t0 →
      (queuedMarker job || (job.status == "queued")) = true →
      ¬(wenv.now - t0 < mq) →
      jobPhaseInit job = "ranking" →
      wenv.rankingRun.outcome = Except.ok res →
      handoffOrdered "report" (queued_watchdog_job_ops wenv mq job)) := by
  refine ⟨?_, ?_, ?_, ?_⟩
  · intro env st ex res hgate hstage hok hpos
    simp only [process_job, hgate, process_job_body, hstage, hok, if_neg hpos,
      enqueue_job_ops, List.append_assoc, List.cons_append, List.nil_append,
      List.singleton_append, if_pos, reduceIte]
    exact handoffOrdered_of_shape "ranking" _ _ _ _ rfl
  · intro env st ex res hgate hstage hok
    simp only [process_job, hgate, process_job_body, hstage, hok,
      enqueue_job_ops, List.append_assoc, List.cons_append, List.nil_append,
      List.singleton_append, reduceIte]
    exact handoffOrdered_of_shape "report" _ _ _ _ rfl
  · intro wenv mq job t0 res hsel hpt hmarker htime hphase hok hpos
    simp only [queued_watchdog_job_ops, hsel, hpt, hmarker, htime, hphase, hok,
      if_neg hpos, enqueue_job_ops, List.append_assoc, List.cons_append,
      List.nil_append, List.singleton_append, decide_eq_true_eq, reduceIte,
      Bool.not_true, Bool.false_or, decide_False, if_true, if_false]
    exact handoffOrdered_of_shape "ranking" _ _ _ _ rfl
  · intro wenv mq job t0 res hsel hpt hmarker htime hphase hok
    simp only [queued_watchdog_job_ops, hsel, hpt, hmarker, htime, hphase, hok,
      enqueue_job_ops, List.append_assoc, List.cons_append,
      List.nil_append, List.singleton_append, decide_eq_true_eq, reduceIte,
      Bool.not_true, Bool.false_or, decide_False, if_true, if_false]
    exact handoffOrdered_of_shape "report" _ _ _ _ rfl

/-- Witness for handoff_progress_write_before_enqueue: all four handoffs
at concrete environments. -/
theorem handoff_progress_write_before_enqueue_witness :
    handoffOrdered "ranking" (process_job envSearchHandoff "pipeline" (some "search")).2 ∧
    handoffOrdered "report" (process_job envRankingHandoff "pipeline" (some "ranking")).2 ∧
    handoffOrdered "ranking" (queued_watchdog_job_ops wdEnvSuccess 20 searchStuckQueuedJob) ∧
    handoffOrdered "report" (queued_watchdog_job_ops wdEnvSuccess 20 rankingStuckQueuedJob) :=
  ⟨handoff_progress_write_before_enqueue.1 envSearchHandoff (some "search") none
     { papers_found := some 5 } rfl rfl rfl (by decide),
   handoff_progress_write_before_enqueue.2.1 envRankingHandoff (some "ranking") none
     { papers_found := some 5 } rfl rfl rfl,
   handoff_progress_write_before_enqueue.2.2.1 wdEnvSuccess 20 searchStuckQueuedJob 0
     { papers_found := some 5 } (by decide) rfl (by decide) (by decide) (by decide) rfl
     (by decide),
   handoff_progress_write_before_enqueue.2.2.2 wdEnvSuccess 20 rankingStuckQueuedJob 0
     { papers_found := some 5 } (by decide) rfl (by decide) (by decide) (by decide) rfl⟩

/-- Helper: Char.ofNat at a valid codepoint round-trips through toNat. -/
theorem toNat_ofNat_valid (n : Nat) (h : n.isValidChar) : (Char.ofNat n).toNat = n := by
  simp [Char.ofNat, h, Char.ofNatAux, Char.toNat, UInt32.toNat]

/-- Helper: per-character lowercasing is idempotent. -/
theorem pyLower_idem (c : Char) : pyLower (pyLower c) = pyLower c := by
  unfold pyLower
  by_cases h : c.toNat ≥ 65 ∧ c.toNat ≤ 90
  · simp only [Char.toLower]
    rw [if_pos h]
    have hv : (c.toNat + 32).isValidChar := Or.inl (by omega)
    have ht : (Char.ofNat (c.toNat + 32)).toNat = c.toNat + 32 := toNat_ofNat_valid _ hv
    rw [if_neg (by rw [ht]; omega)]
  · simp only [Char.toLower]
    rw [if_neg h, if_neg h]

/-- Helper: every character of a collapseSeps output is an inserted
underscore or a non-separator character of the input. -/
theorem collapseSeps_mem (c : Char) : ∀ (l : List Char) (b : Bool),
    c ∈ collapseSeps b l → c = '_' ∨ (c ∈ l ∧ isSlugSep c = false)
  | [], b => by intro h; exact absurd h (by simp [collapseSeps])
  | a :: as, b => by
    intro h
    by_cases ha : isSlugSep a
    · rw [collapseSeps, if_pos ha] at h
      by_cases hb : b
      · subst hb
        rw [if_pos rfl] at h
        rcases collapseSeps_mem c as true h with h' | ⟨h1, h2⟩
        · exact Or.inl h'
        · exact Or.inr ⟨List.mem_cons_of_mem a h1, h2⟩
      · have hb' : b = false := by revert hb; cases b <;> simp
        subst hb'
        rw [if_neg (by simp)] at h
        rcases List.mem_cons.mp h with h' | h'
        · exact Or.inl h'
        · rcases collapseSeps_mem c as true h' with h'' | ⟨h1, h2⟩
          · exact Or.inl h''
          · exact Or.inr ⟨List.mem_cons_of_mem a h1, h2⟩
    · rw [collapseSeps, if_neg ha] at h
      rcases List.mem_cons.mp h with h' | h'
      · subst h'
        exact Or.inr ⟨List.mem_cons_self _ _, by revert ha; cases hx : isSlugSep c <;> simp⟩
      · rcases collapseSeps_mem c as false h' with h'' | ⟨h1, h2⟩
        · exact Or.inl h''
        · exact Or.inr ⟨List.mem_cons_of_mem a h1, h2⟩

/-- Helper: collapseSeps is the identity on separator-free input. -/
theorem collapseSeps_id : ∀ (l : List Char) (b : Bool),
    (∀ c ∈ l, isSlugSep c = false) → collapseSeps b l = l
  | [], _ => by intro _; rfl
  | a :: as, b => by
    intro h
    have ha : isSlugSep a = false := h a (List.mem_cons_self _ _)
    rw [collapseSeps, if_neg (by simp [ha])]
    rw [collapseSeps_id as false (fun c hc => h c (List.mem_cons_of_mem a hc))]

/-- Helper: dropWhile is the identity when the head fails the predicate. -/
theorem dropWhile_eq_self_of_head (p : Char → Bool) (l : List Char)
    (h : ∀ c, l.head? = some c → p c = false) : l.dropWhile p = l := by
  cases l with
  | nil => rfl
  | cons a as =>
    rw [List.dropWhile_cons, if_neg (by simp [h a rfl])]

/-- Helper: pyStrip only removes characters. -/
theorem pyStrip_subset (ch : Char) (l : List Char) : ∀ c ∈ pyStrip ch l, c ∈ l := by
  intro c hc
  unfold pyStrip at hc
  have h1 := List.mem_reverse.mp hc
  have h2 := List.dropWhile_sublist (l := (l.dropWhile (· == ch)).reverse) (· == ch)
  have h3 := h2.mem h1
  have h4 := List.mem_reverse.mp h3
  exact (List.dropWhile_sublist (l := l) (· == ch)).mem h4

/-- Helper: the head of a dropWhile output fails the predicate. -/
theorem head_dropWhile (p : Char → Bool) :
    ∀ (l : List Char) (c : Char), (l.dropWhile p).head? = some c → p c = false
  | [], c => by intro h; exact absurd h (by simp)
  | a :: as, c => by
    intro h
    rw [List.dropWhile_cons] at h
    by_cases hp : p a
    · rw [if_pos (by simp [hp])] at h
      exact head_dropWhile p as c h
    · rw [if_neg (by simp [hp])] at h
      simp at h
      rw [← h]
      exact Bool.eq_false_iff.mpr hp

/-- Helper: the head of a pyStrip output is never the stripped character. -/
theorem pyStrip_head (ch : Char) (l : List Char) (c : Char)
    (h : (pyStrip ch l).head? = some c) : (c == ch) = false := by
  unfold pyStrip at h
  set l1 := l.dropWhile (· == ch) with hl1
  obtain ⟨pre, hpre⟩ := List.dropWhile_suffix (l := l1.reverse) (· == ch)
  have hrev : l1 = (l1.reverse.dropWhile (· == ch)).reverse ++ pre.reverse := by
    have := congrArg List.reverse hpre
    rw [List.reverse_append] at this
    rw [this, List.reverse_reverse]
  have hh : l1.head? = some c := by
    rw [hrev, List.head?_append, h]
    rfl
  exact head_dropWhile (· == ch) l c hh

/-- Helper: the head of a take output is the head of the list. -/
theorem head_take (n : Nat) (l : List Char) (c : Char)
    (h : (l.take n).head? = some c) : l.head? = some c := by
  cases n with
  | zero => exact absurd h (by simp)
  | succ m =>
    cases l with
    | nil => exact absurd h (by simp)
    | cons a as => simpa using h

/-- C9 counterexample: for the 102-character query of 99 letters a, a
space and bb, the slug is exactly 100 characters and the truncation to 100
leaves a trailing underscore, which a second application strips: slugify
is not idempotent at this input. -/
theorem slugify_not_idempotent_counterexample :
    slugify (slugify slugBoundaryQuery) ≠ slugify slugBoundaryQuery ∧
    (slugify slugBoundaryQuery).toList.getLast? = some '_' ∧
    (slugify slugBoundaryQuery).length = 100 ∧
    (slugify (slugify slugBoundaryQuery)).length = 99 := by
  refine ⟨by decide, by decide, by decide, by decide⟩

/-- Helper: slugifyL is idempotent on character lists whose slug does not
end in an underscore. -/
theorem slugifyL_idem (cs : List Char) (h : (slugifyL cs).getLast? ≠ some '_') :
    slugifyL (slugifyL cs) = slugifyL cs := by
  have hTdef : slugifyL cs =
      (pyStrip '_' (collapseSeps false
        ((cs.map pyLower).filter (fun c => isPyWordChar c || isPySpace c || c == '-')))).take
        100 := rfl
  set T := slugifyL cs with hT
  have hmem : ∀ c ∈ T, pyLower c = c ∧ isPyWordChar c = true ∧ isSlugSep c = false := by
    intro c hc
    rw [hTdef] at hc
    have hc1 := List.take_subset _ _ hc
    have hc2 := pyStrip_subset '_' _ c hc1
    rcases collapseSeps_mem c _ false hc2 with h' | ⟨h1, h2⟩
    · subst h'
      exact ⟨by decide, by decide, by decide⟩
    · have hmf := List.mem_filter.mp h1
      obtain ⟨d, _, hd⟩ := List.mem_map.mp hmf.1
      have hlower : pyLower c = c := by rw [← hd]; exact pyLower_idem d
      have hsp : isPySpace c = false ∧ (c == '-') = false := by
        revert h2
        unfold isSlugSep
        cases c == '-' <;> cases isPySpace c <;> simp
      have hword : isPyWordChar c = true := by
        have := hmf.2
        rw [hsp.1, hsp.2] at this
        simpa using this
      exact ⟨hlower, hword, h2⟩
  have step1 : T.map pyLower = T := by
    have : T.map pyLower = T.map id := List.map_congr_left (fun a ha => (hmem a ha).1)
    rw [this, List.map_id]
  have step2 : T.filter (fun c => isPyWordChar c || isPySpace c || c == '-') = T :=
    List.filter_eq_self.mpr (fun a ha => by simp [(hmem a ha).2.1])
  have step3 : collapseSeps false T = T :=
    collapseSeps_id T false (fun c hc => (hmem c hc).2.2)
  have step4 : pyStrip '_' T = T := by
    unfold pyStrip
    have hhead : ∀ c, T.head? = some c → (c == '_') = false := by
      intro c hc
      rw [hTdef] at hc
      exact pyStrip_head '_' _ c (head_take _ _ _ hc)
    have h1 : T.dropWhile (· == '_') = T := dropWhile_eq_self_of_head _ _ hhead
    rw [h1]
    have hlast : ∀ c, T.reverse.head? = some c → (c == '_') = false := by
      intro c hc
      rw [List.head?_reverse] at hc
      have hne : c ≠ '_' := by
        intro he
        rw [he] at hc
        exact h hc
      simpa using hne
    have h2 : T.reverse.dropWhile (· == '_') = T.reverse :=
      dropWhile_eq_self_of_head _ _ hlast
    rw [h2, List.reverse_reverse]
  have step5 : T.take 100 = T := by
    apply List.take_of_length_le
    rw [hTdef, List.length_take]
    exact min_le_left _ _
  calc slugifyL T
      = (pyStrip '_' (collapseSeps false
          ((T.map pyLower).filter (fun c => isPyWordChar c || isPySpace c || c == '-')))).take
          100 := rfl
    _ = T := by rw [step1, step2, step3, step4, step5]

/-- C9 amended: slugify is idempotent on every query whose slug does not
end in an underscore; the only failures are queries where the final
truncation to 100 characters exposes a trailing underscore that a second
application strips. -/
theorem slugify_idem_of_no_trailing_underscore (q : String)
    (h : (slugify q).toList.getLast? ≠ some '_') :
    slugify (slugify q) = slugify q := by
  unfold slugify
  exact congrArg String.mk (slugifyL_idem q.toList h)

/-- Witness for slugify_idem_of_no_trailing_underscore at a concrete
query. -/
theorem slugify_idem_witness :
    (slugify "Neural  Retrieval-2024!").toList.getLast? ≠ some '_' ∧
    slugify (slugify "Neural  Retrieval-2024!") = slugify "Neural  Retrieval-2024!" :=
  ⟨by decide,
   slugify_idem_of_no_trailing_underscore "Neural  Retrieval-2024!" (by decide)⟩

end PaperPilot
